import Mathlib

/-!
Shallow embedding of `src/backend/main.py` (hephaestus-hackathon): a FastAPI
chatbot webhook with one POST endpoint, a branch-based message handler
(`on_message_activity`), a three-entry PDF/DOCX/TXT text-extraction dispatch
(`download_and_extract_text`), and a two-agent group chat created at startup
(`initialize_agents`).

External effects (HTTP download, file extraction, the orchestration SDK's
`AgentGroupChat.invoke`) are modelled as oracle parameters returning
`Except String _`, matching the Python code's `raise`/`except Exception`
discipline; the handler itself is a total function whose result records the
activities sent, the resulting conversation state, whether
`conversation_state.save_changes` was reached, and the arguments of every
download / agent-chat invocation made during the turn.
-/

namespace Hephaestus

/-- An attachment of an incoming activity (`attachment.content_url`,
`attachment.content_type` in `on_message_activity`). -/
structure Attachment where
  content_url : String
  content_type : String
deriving DecidableEq, Repr

/-- A conversation member (`member.id`, `activity.recipient.id`). -/
structure Member where
  id : String
deriving DecidableEq, Repr

/-- The fields of a botbuilder `Activity` that `on_message_activity` reads.
Python's falsy values (`None` text, `None`/empty attachment list) are
modelled as `""` and `[]`. -/
structure Activity where
  type : String
  text : String
  attachments : List Attachment
  members_added : List Member
  recipient : Member
deriving DecidableEq, Repr

/-! ### The conversation-state dictionary

`conversation_data` is a Python dict; the code uses membership test,
item assignment, item read, and `pop(key, None)`. We embed it as an
association list with at most one binding per key (maintained by
`dictSet`). -/

/-- Python `key in d`. -/
def dictContains (d : List (String × String)) (k : String) : Bool :=
  d.any (fun p => p.1 == k)

/-- Python `d[key]` read, with a default for the (unused) missing case. -/
def dictGetD (d : List (String × String)) (k : String) (dflt : String) : String :=
  match d.find? (fun p => p.1 == k) with
  | some p => p.2
  | none => dflt

/-- Python `d[key] = v`. -/
def dictSet (d : List (String × String)) (k v : String) : List (String × String) :=
  if dictContains d k then d.map (fun p => if p.1 == k then (k, v) else p)
  else d ++ [(k, v)]

/-- Python `d.pop(key, None)` (its effect on the dict). -/
def dictPop (d : List (String × String)) (k : String) : List (String × String) :=
  d.filter (fun p => p.1 != k)

/-! ### download_and_extract_text (main.py lines 69-94) -/

/-- The suffix dispatch dict literal of `download_and_extract_text`
(lines 74-78): content type to temp-file suffix. -/
def suffix_table : List (String × String) :=
  [("application/pdf", ".pdf"),
   ("application/vnd.openxmlformats-officedocument.wordprocessingml.document", ".docx"),
   ("text/plain", ".txt")]

/-- Python `{...}.get(content_type, None)` on `suffix_table`. -/
def suffixFor (content_type : String) : Option String :=
  (suffix_table.find? (fun p => p.1 == content_type)).map (fun p => p.2)

/-- `download_and_extract_text(url, content_type)`. The HTTP response is
modelled by its `status` and `body`; the three extraction helpers
(`extract_text_from_pdf`, `extract_text_from_docx`, `extract_text_from_txt`)
are oracle parameters from the downloaded bytes to the extracted text.
A Python `raise Exception(msg)` is `Except.error msg`. -/
def download_and_extract_text (status : Nat) (body content_type : String)
    (extract_pdf extract_docx extract_txt : String → String) :
    Except String String :=
  if status ≠ 200 then
    Except.error ("Download failed with status " ++ toString status)
  else
    match suffixFor content_type with
    | none => Except.error "Unsupported file type"
    | some suffix =>
      if suffix == ".pdf" then Except.ok (extract_pdf body)
      else if suffix == ".docx" then Except.ok (extract_docx body)
      else if suffix == ".txt" then Except.ok (extract_txt body)
      -- unreachable: suffixFor only yields the three suffixes above; in the
      -- Python source this fall-through would leave `text` unbound
      else Except.error "local variable referenced before assignment"

/-! ### Agents created in initialize_agents (main.py lines 97-131) -/

/-- The keyword arguments passed to `project_client.agents.create_agent`.
`tools` records the tools argument of the call; the source passes none. -/
structure AgentSpec where
  model : String
  name : String
  instructions : String
  tools : List String
deriving DecidableEq, Repr

/-- `create_agent(model="gpt-4o-mini", name="question-agent", ...)`
(lines 108-112): no tools argument is passed. -/
def question_agent : AgentSpec :=
  { model := "gpt-4o-mini"
    name := "question-agent"
    instructions := "You are a thoughtful assistant that asks clarifying questions before answering."
    tools := [] }

/-- `create_agent(model="gpt-4o-mini", name="answer-agent", ...)`
(lines 113-117): no tools argument is passed. -/
def answer_agent : AgentSpec :=
  { model := "gpt-4o-mini"
    name := "answer-agent"
    instructions := "You are a helpful AI that attempts to answer using uploaded document text if provided."
    tools := [] }

/-- The agents handed to `AgentGroupChat(agents=[...])` (line 126). -/
def agent_chat_agents : List AgentSpec := [question_agent, answer_agent]

/-- The names imported from `azure.ai.projects.models` (line 19). -/
def azure_ai_projects_models_imports : List String := ["AzureAISearchTool"]

/-- The claim's reading of "equipped with the Azure AI Search tool": the
tool appears among the tools the agent was created with. -/
def has_azure_ai_search_tool (a : AgentSpec) : Bool :=
  a.tools.contains "AzureAISearchTool"

/-- `DefaultTerminationStrategy(maximum_iterations=4)` (line 127). -/
def maximum_iterations : Nat := 4

/-! ### The agent group chat loop -/

/-- A message yielded by `agent_chat.invoke`. `truthy` records how Python
evaluates the object in the loop's `if msg:` guard (object truthiness of
the SDK message is not determined by this repository's code, so it is
carried as data). -/
structure AgentMsg where
  name : String
  content : String
  truthy : Bool
deriving DecidableEq, Repr

/-- Modelled from the spec: the orchestration SDK's
`AgentGroupChat.invoke` generator (absent from `src/`), which per the spec
is iterated "until a sentinel string appears or an iteration cap is hit".
`step` produces the next agent message from the transcript so far;
`is_termination` is the termination-string detection; `fuel` is the
remaining iteration budget of `DefaultTerminationStrategy`. -/
def chatInvokeAux (step : List AgentMsg → AgentMsg)
    (is_termination : AgentMsg → Bool) :
    Nat → List AgentMsg → List AgentMsg
  | 0, transcript => transcript
  | Nat.succ fuel, transcript =>
    let m := step transcript
    if is_termination m then transcript ++ [m]
    else chatInvokeAux step is_termination fuel (transcript ++ [m])

/-- Modelled from the spec: the full sequence of messages yielded by
`agent_chat.invoke` under the iteration cap `maximum_iterations = 4`. -/
def chatInvoke (step : List AgentMsg → AgentMsg)
    (is_termination : AgentMsg → Bool) : List AgentMsg :=
  chatInvokeAux step is_termination maximum_iterations []

/-! ### on_message_activity (main.py lines 134-180) -/

/-- The initial prompt of the agent chat (lines 159-161): the user input,
with the stored document text appended when `"last_uploaded_text"` is in
`conversation_data`. -/
def initial_prompt (user_input : String)
    (conversation_data : List (String × String)) : String :=
  if dictContains conversation_data "last_uploaded_text" then
    user_input ++ "\n\nHere is the document content:\n"
      ++ dictGetD conversation_data "last_uploaded_text" ""
  else user_input

/-- The transcript join of lines 164-168: every message passing the
`if msg:` guard formatted as `f"{msg.name}: {msg.content}"`, joined with
newlines. -/
def format_transcript (msgs : List AgentMsg) : String :=
  String.intercalate "\n"
    ((msgs.filter (fun m => m.truthy)).map (fun m => m.name ++ ": " ++ m.content))

/-- The greeting sent on `conversationUpdate` (line 178). -/
def GREETING : String :=
  "👋 Hi! I'm HephAIstus — your AI assistant for this hackathon project. Upload a document or ask me anything to get started!"

/-- The environment of one handler turn: whether the global `agent_chat` is
initialized (not `None`), the result of `download_and_extract_text` for a
given attachment, and the outcome of draining `agent_chat.invoke` for a
given initial prompt (`Except.error e` models a raised exception `e`). -/
structure HandlerEnv where
  agent_chat_initialized : Bool
  download : Attachment → Except String String
  chat : String → Except String (List AgentMsg)

/-- The observable outcome of one `on_message_activity` turn:
activities sent (in order), the conversation dict afterwards, whether
`conversation_state.save_changes` was reached, and the arguments of every
`download_and_extract_text` call and every `agent_chat.invoke` call. -/
structure HandlerResult where
  replies : List String
  data : List (String × String)
  saved : Bool
  downloads : List Attachment
  chats : List String
deriving DecidableEq, Repr

/-- `on_message_activity` (lines 134-180). The handler is a total
function: the two `try/except` blocks turn oracle errors into reply
strings, so no exception escapes to the endpoint. -/
def on_message_activity (env : HandlerEnv) (act : Activity)
    (conversation_data : List (String × String)) : HandlerResult :=
  match act.attachments with
  | attachment :: _ =>
    -- lines 139-149: document branch, early return before save_changes
    (match env.download attachment with
     | Except.ok text =>
       { replies := ["📄 Document received. You can now ask me what you want to do with it!"]
         data := dictSet conversation_data "last_uploaded_text" text
         saved := false
         downloads := [attachment]
         chats := [] }
     | Except.error e =>
       { replies := ["⚠️ Error processing file: " ++ e]
         data := conversation_data
         saved := false
         downloads := [attachment]
         chats := [] })
  | [] =>
    if act.type = "message" ∧ act.text ≠ "" then
      -- lines 152-173: text-message branch
      if env.agent_chat_initialized = false then
        { replies := ["⚠️ Agent system not initialized."]
          data := conversation_data
          saved := false
          downloads := []
          chats := [] }
      else
        let prompt := initial_prompt act.text conversation_data
        let final_response :=
          match env.chat prompt with
          | Except.ok msgs => format_transcript msgs
          | Except.error e => "⚠️ Agent chat error: " ++ e
        { replies := [final_response]
          data := dictPop conversation_data "last_uploaded_text"
          saved := true
          downloads := []
          chats := [prompt] }
    else if act.type = "conversationUpdate" then
      -- lines 175-178: greet each added member other than the bot
      { replies :=
          (act.members_added.filter (fun m => m.id != act.recipient.id)).map
            (fun _ => GREETING)
        data := conversation_data
        saved := true
        downloads := []
        chats := [] }
    else
      { replies := []
        data := conversation_data
        saved := true
        downloads := []
        chats := [] }

/-! ### The FastAPI app and the /api/messages endpoint (lines 26, 183-198) -/

/-- A route registered on the FastAPI app. -/
structure Route where
  method : String
  path : String
deriving DecidableEq, Repr

/-- The routes the module registers on `app`: the single decorator
`@app.post("/api/messages")` (line 183). `@app.on_event("startup")` is an
event hook, not a route. -/
def app_routes : List Route := [{ method := "POST", path := "/api/messages" }]

/-- The outcome of one request to the endpoint: HTTP status, body, and the
activities handed to `adapter.process_activity`. -/
structure EndpointResult where
  status_code : Nat
  content : String
  processed : List Activity
deriving DecidableEq, Repr

/-- The `messages` endpoint (lines 183-198). `parse_result` models
`Activity().deserialize(await req.json())` (which may raise);
`process_activity` models `adapter.process_activity` running the handler. -/
def messages (parse_result : Except String Activity) (auth_header : String)
    (process_activity : Activity → String → Except String Unit) :
    EndpointResult :=
  match parse_result with
  | Except.error e => { status_code := 500, content := "Error: " ++ e, processed := [] }
  | Except.ok activity =>
    match process_activity activity auth_header with
    | Except.ok _ => { status_code := 200, content := "", processed := [activity] }
    | Except.error e =>
      { status_code := 500, content := "Error: " ++ e, processed := [activity] }

end Hephaestus

namespace Hephaestus

/-! ## Helper lemmas -/

lemma chatInvokeAux_length_le (step : List AgentMsg → AgentMsg)
    (is_termination : AgentMsg → Bool) :
    ∀ (fuel : Nat) (transcript : List AgentMsg),
      (chatInvokeAux step is_termination fuel transcript).length
        ≤ transcript.length + fuel := by
  intro fuel
  induction fuel with
  | zero =>
    intro t
    simp [chatInvokeAux]
  | succ n ih =>
    intro t
    simp only [chatInvokeAux]
    split
    · simp
    · have h := ih (t ++ [step t])
      simp [List.length_append] at h ⊢
      omega

/-! ## Claims -/

/-- Claim C3: `download_and_extract_text` dispatches on the attachment's
content type through a table with exactly three entries (PDF, DOCX, TXT);
every other content type raises "Unsupported file type" with no extractor
ever consulted, and a non-200 HTTP status raises
"Download failed with status ...". -/
theorem download_dispatch_table_spec (status : Nat) (body ct : String)
    (pdf docx txt : String → String) :
    suffix_table.length = 3
    ∧ (status ≠ 200 →
        download_and_extract_text status body ct pdf docx txt
          = Except.error ("Download failed with status " ++ toString status))
    ∧ ((suffixFor ct).isNone ↔
        (ct ≠ "application/pdf"
         ∧ ct ≠ "application/vnd.openxmlformats-officedocument.wordprocessingml.document"
         ∧ ct ≠ "text/plain"))
    ∧ (suffixFor ct = none →
        download_and_extract_text 200 body ct pdf docx txt
          = Except.error "Unsupported file type")
    ∧ download_and_extract_text 200 body "application/pdf" pdf docx txt
        = Except.ok (pdf body)
    ∧ download_and_extract_text 200 body
        "application/vnd.openxmlformats-officedocument.wordprocessingml.document"
        pdf docx txt = Except.ok (docx body)
    ∧ download_and_extract_text 200 body "text/plain" pdf docx txt
        = Except.ok (txt body) := by
  refine ⟨rfl, ?_, ?_, ?_, rfl, rfl, rfl⟩
  · intro h
    simp [download_and_extract_text, h]
  · by_cases h1 : ct = "application/pdf"
    · subst h1
      decide
    · by_cases h2 : ct = "application/vnd.openxmlformats-officedocument.wordprocessingml.document"
      · subst h2
        decide
      · by_cases h3 : ct = "text/plain"
        · subst h3
          decide
        · have e1 : ("application/pdf" == ct) = false :=
            beq_eq_false_iff_ne.mpr (Ne.symm h1)
          have e2 : ("application/vnd.openxmlformats-officedocument.wordprocessingml.document" == ct) = false :=
            beq_eq_false_iff_ne.mpr (Ne.symm h2)
          have e3 : ("text/plain" == ct) = false :=
            beq_eq_false_iff_ne.mpr (Ne.symm h3)
          simp [suffixFor, suffix_table, List.find?, e1, e2, e3, h1, h2, h3]
  · intro h
    simp [download_and_extract_text, h]

/-- Witness for C3: a non-200 status yields the download-failure error. -/
theorem download_dispatch_table_spec_witness :
    download_and_extract_text 404 "body" "image/png" id id id
      = Except.error "Download failed with status 404" := by
  exact (download_dispatch_table_spec 404 "body" "image/png" id id id).2.1 (by decide)

/-- Claim C4 (counterexample): the question/answer agents created at
startup are NOT equipped with the Azure AI Search tool — `create_agent` is
called with only model, name and instructions, so both agents' tool lists
are empty. -/
theorem agents_not_equipped_with_search_tool :
    ¬ (has_azure_ai_search_tool question_agent = true
       ∧ has_azure_ai_search_tool answer_agent = true) := by
  decide

/-- Claim C4 (amended): `AzureAISearchTool` is imported from
`azure.ai.projects.models` but never attached to any agent; the two agents
handed to `AgentGroupChat` are created with no tools at all. -/
theorem agents_created_without_tools :
    azure_ai_projects_models_imports = ["AzureAISearchTool"]
    ∧ question_agent.tools = []
    ∧ answer_agent.tools = []
    ∧ agent_chat_agents = [question_agent, answer_agent] := by
  exact ⟨rfl, rfl, rfl, rfl⟩

/-- Claim C1: the agent group-chat loop of the text-message branch builds a
finite transcript on every input — the SDK generator (modelled from the
spec) yields at most `maximum_iterations = 4` messages, and stops at once
when the termination detection fires on the first message. -/
theorem agent_chat_loop_bounded :
    ∀ (step : List AgentMsg → AgentMsg) (is_termination : AgentMsg → Bool),
      (chatInvoke step is_termination).length ≤ maximum_iterations
      ∧ ((chatInvoke step is_termination).filter (fun m => m.truthy)).length
          ≤ maximum_iterations
      ∧ maximum_iterations = 4
      ∧ (is_termination (step []) = true →
          chatInvoke step is_termination = [step []]) := by
  intro step isT
  have hlen : (chatInvoke step isT).length ≤ maximum_iterations := by
    have h := chatInvokeAux_length_le step isT maximum_iterations []
    simpa [chatInvoke] using h
  refine ⟨hlen, ?_, rfl, ?_⟩
  · exact le_trans (List.length_filter_le _ _) hlen
  · intro h
    show chatInvokeAux step isT (Nat.succ 3) [] = [step []]
    simp [chatInvokeAux, h]

/-- Witness for C1: with a step function that immediately emits a message
detected as terminal, the loop stops after one message. -/
theorem agent_chat_loop_bounded_witness :
    chatInvoke (fun _ => { name := "answer-agent", content := "done", truthy := true })
        (fun _ => true)
      = [{ name := "answer-agent", content := "done", truthy := true }] := by
  exact (agent_chat_loop_bounded
    (fun _ => { name := "answer-agent", content := "done", truthy := true })
    (fun _ => true)).2.2.2 rfl

end Hephaestus

namespace Hephaestus

/-! ## Sample inputs used by the witnesses -/

/-- A turn environment whose oracles all succeed. -/
def env_ok : HandlerEnv :=
  { agent_chat_initialized := true
    download := fun _ => Except.ok "doc text"
    chat := fun _ =>
      Except.ok [{ name := "answer-agent", content := "hi", truthy := true }] }

/-- A turn environment whose oracles raise. -/
def env_err : HandlerEnv :=
  { agent_chat_initialized := true
    download := fun _ => Except.error "boom"
    chat := fun _ => Except.error "chatboom" }

/-- A turn environment where `agent_chat` is still `None`. -/
def env_uninit : HandlerEnv :=
  { agent_chat_initialized := false
    download := fun _ => Except.ok "doc text"
    chat := fun _ => Except.ok [] }

/-- The bot itself as recipient. -/
def bot : Member := { id := "bot" }

/-- A PDF attachment sample. -/
def pdf_attachment : Attachment :=
  { content_url := "https://example.com/f.pdf"
    content_type := "application/pdf" }

/-- An activity carrying one attachment. -/
def act_doc : Activity :=
  { type := "message", text := "", attachments := [pdf_attachment]
    members_added := [], recipient := bot }

/-- A plain text message. -/
def act_text : Activity :=
  { type := "message", text := "summarize", attachments := []
    members_added := [], recipient := bot }

/-- A conversationUpdate adding one user and the bot. -/
def act_update : Activity :=
  { type := "conversationUpdate", text := "", attachments := []
    members_added := [{ id := "alice" }, bot], recipient := bot }

/-! ## Helper lemma on the conversation dict -/

lemma dictContains_dictPop (d : List (String × String)) (k : String) :
    dictContains (dictPop d k) k = false := by
  simp only [dictContains, dictPop]
  rw [Bool.eq_false_iff]
  intro hcon
  rcases List.any_eq_true.mp hcon with ⟨p, hp, hpk⟩
  rcases List.mem_filter.mp hp with ⟨_, hne⟩
  exact bne_iff_ne.mp hne (beq_iff_eq.mp hpk)

/-! ## Handler claims -/

/-- Claim C7: `on_message_activity` takes exactly one branch, in order:
attachments present — document processing with an early return (no agent
chat, no save); otherwise a `"message"` with non-empty text — the agent
chat branch, exactly one reply; otherwise a `"conversationUpdate"` — one
greeting per added non-bot member; anything else — no reply. -/
theorem handler_single_branch_dispatch (env : HandlerEnv) (act : Activity)
    (d : List (String × String)) :
    (∀ a rest, act.attachments = a :: rest →
      (on_message_activity env act d).downloads = [a]
      ∧ (on_message_activity env act d).chats = []
      ∧ (on_message_activity env act d).saved = false)
    ∧ (act.attachments = [] → act.type = "message" → act.text ≠ "" →
      (on_message_activity env act d).downloads = []
      ∧ (on_message_activity env act d).replies.length = 1
      ∧ (env.agent_chat_initialized = true →
          (on_message_activity env act d).chats = [initial_prompt act.text d]))
    ∧ (act.attachments = [] → act.type = "conversationUpdate" →
      (on_message_activity env act d).replies
        = (act.members_added.filter (fun m => m.id != act.recipient.id)).map
            (fun _ => GREETING))
    ∧ (act.attachments = [] → (act.type = "message" → act.text = "") →
        act.type ≠ "conversationUpdate" →
      (on_message_activity env act d).replies = []) := by
  refine ⟨?_, ?_, ?_, ?_⟩
  · intro a rest h
    cases hd : env.download a <;> simp [on_message_activity, h, hd]
  · intro h1 h2 h3
    by_cases hi : env.agent_chat_initialized = true
    · cases hc : env.chat (initial_prompt act.text d) <;>
        simp [on_message_activity, h1, h2, h3, hi, hc]
    · rw [Bool.not_eq_true] at hi
      simp [on_message_activity, h1, h2, h3, hi]
  · intro h1 h2
    have hnot : ¬(act.type = "message" ∧ act.text ≠ "") := by
      rintro ⟨hm, _⟩
      rw [h2] at hm
      exact absurd hm (by decide)
    simp [on_message_activity, h1, h2, hnot]
  · intro h1 h2 h3
    have hnot : ¬(act.type = "message" ∧ act.text ≠ "") := by
      rintro ⟨hm, ht⟩
      exact ht (h2 hm)
    simp [on_message_activity, h1, hnot, h3]

/-- Witness for C7: a conversationUpdate adding one user and the bot
produces exactly one greeting. -/
theorem handler_single_branch_dispatch_witness :
    (on_message_activity env_ok act_update []).replies = [GREETING] := by
  exact (handler_single_branch_dispatch env_ok act_update []).2.2.1 rfl rfl

/-- Claim C2: download/extraction errors and agent-chat errors are each
caught exactly once: the stringified exception becomes the single reply
(with its prefix), the failing oracle was called exactly once (no retry),
and the handler returns a result rather than re-raising. -/
theorem errors_caught_once_and_stringified (env : HandlerEnv) (act : Activity)
    (d : List (String × String)) :
    (∀ a rest e, act.attachments = a :: rest → env.download a = Except.error e →
      (on_message_activity env act d).replies = ["⚠️ Error processing file: " ++ e]
      ∧ (on_message_activity env act d).downloads = [a]
      ∧ (on_message_activity env act d).data = d)
    ∧ (∀ e, act.attachments = [] → act.type = "message" → act.text ≠ "" →
        env.agent_chat_initialized = true →
        env.chat (initial_prompt act.text d) = Except.error e →
      (on_message_activity env act d).replies = ["⚠️ Agent chat error: " ++ e]
      ∧ (on_message_activity env act d).chats = [initial_prompt act.text d]) := by
  constructor
  · intro a rest e h hd
    simp [on_message_activity, h, hd]
  · intro e h1 h2 h3 h4 hc
    simp [on_message_activity, h1, h2, h3, h4, hc]

/-- Witness for C2: a failing download is reported once with its prefix. -/
theorem errors_caught_once_and_stringified_witness :
    (on_message_activity env_err act_doc []).replies
      = ["⚠️ Error processing file: boom"] := by
  exact ((errors_caught_once_and_stringified env_err act_doc []).1
    pdf_attachment [] "boom" rfl rfl).1

/-- Claim C5: a text message runs the two-agent (both gpt-4o-mini)
question/answer chat on the user input — with the stored document text
appended when present — and the single reply is the transcript of every
message passing the `if msg:` guard, formatted "name: content" and joined
with newlines. -/
theorem text_message_two_agent_transcript (env : HandlerEnv) (act : Activity)
    (d : List (String × String)) (msgs : List AgentMsg)
    (h1 : act.attachments = []) (h2 : act.type = "message")
    (h3 : act.text ≠ "") (h4 : env.agent_chat_initialized = true)
    (h5 : env.chat (initial_prompt act.text d) = Except.ok msgs) :
    (on_message_activity env act d).replies = [format_transcript msgs]
    ∧ format_transcript msgs
        = String.intercalate "\n"
            ((msgs.filter (fun m => m.truthy)).map
              (fun m => m.name ++ ": " ++ m.content))
    ∧ (on_message_activity env act d).chats = [initial_prompt act.text d]
    ∧ (dictContains d "last_uploaded_text" = true →
        initial_prompt act.text d
          = act.text ++ "\n\nHere is the document content:\n"
              ++ dictGetD d "last_uploaded_text" "")
    ∧ (dictContains d "last_uploaded_text" = false →
        initial_prompt act.text d = act.text)
    ∧ question_agent.model = "gpt-4o-mini"
    ∧ answer_agent.model = "gpt-4o-mini"
    ∧ agent_chat_agents.length = 2 := by
  refine ⟨?_, rfl, ?_, ?_, ?_, rfl, rfl, rfl⟩
  · simp [on_message_activity, h1, h2, h3, h4, h5]
  · simp [on_message_activity, h1, h2, h3, h4]
  · intro h
    simp [initial_prompt, h]
  · intro h
    simp [initial_prompt, h]

/-- Witness for C5: one truthy agent message yields the one-line
transcript reply. -/
theorem text_message_two_agent_transcript_witness :
    (on_message_activity env_ok act_text []).replies = ["answer-agent: hi"] := by
  exact (text_message_two_agent_transcript env_ok act_text []
    [{ name := "answer-agent", content := "hi", truthy := true }]
    rfl rfl (by decide) rfl rfl).1

/-- Claim C6: the app registers exactly one route, POST /api/messages,
whose body hands the deserialized Activity to the adapter and answers 200
on success. -/
theorem single_post_endpoint (parse_result : Except String Activity)
    (auth_header : String)
    (process_activity : Activity → String → Except String Unit)
    (a : Activity)
    (h1 : parse_result = Except.ok a)
    (h2 : process_activity a auth_header = Except.ok ()) :
    app_routes = [{ method := "POST", path := "/api/messages" }]
    ∧ app_routes.length = 1
    ∧ (messages parse_result auth_header process_activity).processed = [a]
    ∧ (messages parse_result auth_header process_activity).status_code = 200 := by
  subst h1
  refine ⟨rfl, rfl, ?_, ?_⟩ <;> simp [messages, h2]

/-- Witness for C6: a successfully parsed and processed request gets 200. -/
theorem single_post_endpoint_witness :
    (messages (Except.ok act_text) "" (fun _ _ => Except.ok ())).status_code
      = 200 := by
  exact (single_post_endpoint (Except.ok act_text) ""
    (fun _ _ => Except.ok ()) act_text rfl rfl).2.2.2

/-- Claim C8: the document context is one-shot — after the text branch the
dict no longer contains "last_uploaded_text" (whether the chat succeeded
or raised), so a following text message is sent with the bare user text as
prompt. -/
theorem doc_context_one_shot (env : HandlerEnv) (act : Activity)
    (d : List (String × String))
    (h1 : act.attachments = []) (h2 : act.type = "message")
    (h3 : act.text ≠ "") (h4 : env.agent_chat_initialized = true) :
    (on_message_activity env act d).data = dictPop d "last_uploaded_text"
    ∧ dictContains (on_message_activity env act d).data "last_uploaded_text"
        = false
    ∧ (∀ act2 : Activity, act2.attachments = [] → act2.type = "message" →
        act2.text ≠ "" →
        (on_message_activity env act2 (on_message_activity env act d).data).chats
          = [act2.text]) := by
  have hdata : (on_message_activity env act d).data
      = dictPop d "last_uploaded_text" := by
    simp [on_message_activity, h1, h2, h3, h4]
  refine ⟨hdata, ?_, ?_⟩
  · rw [hdata]
    exact dictContains_dictPop d _
  · intro act2 g1 g2 g3
    rw [hdata]
    have hip : initial_prompt act2.text (dictPop d "last_uploaded_text")
        = act2.text := by
      simp [initial_prompt, dictContains_dictPop]
    simp [on_message_activity, g1, g2, g3, h4, hip]

/-- Witness for C8: after a text turn, the stored document text is gone. -/
theorem doc_context_one_shot_witness :
    dictContains
      (on_message_activity env_ok act_text
        [("last_uploaded_text", "stuff")]).data "last_uploaded_text"
      = false := by
  exact (doc_context_one_shot env_ok act_text [("last_uploaded_text", "stuff")]
    rfl rfl (by decide) rfl).2.1

/-- Claim C9: with attachments present, only attachments[0] is downloaded,
no agent chat runs, the handler returns before save_changes, and the
result is unchanged by any further attachments, any message text, or any
other field of the activity. -/
theorem first_attachment_only (env : HandlerEnv) (act : Activity)
    (d : List (String × String)) (a : Attachment) (rest : List Attachment)
    (h : act.attachments = a :: rest) :
    (on_message_activity env act d).downloads = [a]
    ∧ (on_message_activity env act d).chats = []
    ∧ (on_message_activity env act d).saved = false
    ∧ (∀ (ty2 t2 : String) (rest2 : List Attachment)
         (ma2 : List Member) (rc2 : Member),
        on_message_activity env
            { type := ty2, text := t2, attachments := a :: rest2,
              members_added := ma2, recipient := rc2 } d
          = on_message_activity env act d) := by
  cases hd : env.download a <;>
    exact ⟨by simp [on_message_activity, h, hd],
           by simp [on_message_activity, h, hd],
           by simp [on_message_activity, h, hd],
           fun ty2 t2 rest2 ma2 rc2 => by simp [on_message_activity, h, hd]⟩

/-- Witness for C9: the single PDF attachment is the one download and no
chat is invoked. -/
theorem first_attachment_only_witness :
    (on_message_activity env_ok act_doc []).downloads = [pdf_attachment]
    ∧ (on_message_activity env_ok act_doc []).chats = [] := by
  have h := first_attachment_only env_ok act_doc [] pdf_attachment [] rfl
  exact ⟨h.1, h.2.1⟩

/-- Claim C10: with `agent_chat` still `None`, a text message is answered
with the not-initialized warning and the handler returns before popping or
saving, leaving the conversation dict unchanged. -/
theorem uninitialized_agent_reply (env : HandlerEnv) (act : Activity)
    (d : List (String × String))
    (h1 : act.attachments = []) (h2 : act.type = "message")
    (h3 : act.text ≠ "") (h4 : env.agent_chat_initialized = false) :
    (on_message_activity env act d).replies = ["⚠️ Agent system not initialized."]
    ∧ (on_message_activity env act d).data = d
    ∧ (on_message_activity env act d).saved = false
    ∧ (on_message_activity env act d).chats = []
    ∧ (on_message_activity env act d).downloads = [] := by
  refine ⟨?_, ?_, ?_, ?_, ?_⟩ <;> simp [on_message_activity, h1, h2, h3, h4]

/-- Witness for C10: an uninitialized agent system leaves the stored
document text in place and replies with the warning. -/
theorem uninitialized_agent_reply_witness :
    (on_message_activity env_uninit act_text
        [("last_uploaded_text", "stuff")]).replies
      = ["⚠️ Agent system not initialized."]
    ∧ (on_message_activity env_uninit act_text
        [("last_uploaded_text", "stuff")]).data
      = [("last_uploaded_text", "stuff")] := by
  have h := uninitialized_agent_reply env_uninit act_text
    [("last_uploaded_text", "stuff")] rfl rfl (by decide) rfl
  exact ⟨h.1, h.2.1⟩

end Hephaestus
